import Mathlib

/-!
# webrtc-transcriber: verification of the transcription-stream pipeline

Shallow embedding of the transcription backends and the RTC audio pump of
the webrtc-transcriber repository:

* `internal/transcribe/service.go` — `Result`, `StreamOptions`, the
  `Service` / `Stream` contracts;
* `internal/transcribe/recorder.go` — the batch pass-through recorder
  (`RecorderStream`), which accumulates PCM into a WAV file and patches the
  header sizes on close;
* the Whisper batch backend (`WhisperStream`), which does the same and then
  invokes an external recognizer;
* `internal/transcribe/iflytek.go` — the Xunfei streaming WebSocket backend
  (`IflyTekStream`), plus the structurally identical Azure stream;
* `internal/rtc/pion.go` — the audio pump `handleAudioTrack` (packet loop
  and the deferred close-drain-relay block).

Modelling conventions:

* Bytes are `Nat` (values < 256 where produced by the source); files are
  `List Nat` of their byte content plus an on-disk flag.  File-system
  operations (`Sync`, `Stat`, `Seek`, `Write`, `Close` of `os.File`) are
  modelled as succeeding; `Stat` reports the byte length.  The Go source
  truncates the reported size with `uint32(fileInfo.Size())`, which the
  model keeps as `% 2^32`.
* A Go channel of results is a list of pushed values plus a closed flag.
  Closing an already-closed Go channel is a runtime panic; the model
  records that event in the `panicked` flag (the Go function never returns
  normally past that point, so `panicked = true` marks the violation).
* A WebSocket connection is an open flag plus the list of frames actually
  transmitted.  `WriteMessage` on a connection whose underlying transport
  was closed fails without transmitting (gorilla/websocket returns the
  net-package "use of closed network connection" error); base64 encoding of
  the audio payload is a bijection and the model stores the pre-encoding
  bytes.
* Confidence scores are exact rationals (the Go source only ever uses the
  float32 literals 0.0, 0.8, 0.9 and 1.0, all exactly representable).
-/

namespace WebrtcTranscriber

/-- `transcribe.Result` (service.go): one transcription outcome.
`audioFile`/`textFile` are `omitempty` in the wire format; the Go zero
value is the empty string. -/
structure Result where
  text : String
  confidence : ℚ
  final : Bool
  audioFile : String := ""
  textFile : String := ""
deriving Repr, DecidableEq

/-- `transcribe.StreamOptions` (service.go). -/
structure StreamOptions where
  language : String
  transcribe : Bool
deriving Repr, DecidableEq

/-- A Go channel of `Result`s: the values pushed so far (in order), whether
`close` has been called, and whether a second `close` was attempted —
closing a closed Go channel panics at runtime, which the model records in
`panicked` instead of unwinding. -/
structure ResultChan where
  sent : List Result
  closed : Bool
  panicked : Bool
deriving Repr, DecidableEq

/-- A freshly made result channel (`make(chan Result, n)`). -/
def ResultChan.fresh : ResultChan := ⟨[], false, false⟩

/-- `ch <- r`: append a result to the channel. -/
def ResultChan.push (c : ResultChan) (r : Result) : ResultChan :=
  { c with sent := c.sent ++ [r] }

/-- `close(ch)`: closing an open channel marks it closed; closing a closed
channel is the Go runtime panic "close of closed channel", recorded in
`panicked`. -/
def ResultChan.closeChan (c : ResultChan) : ResultChan :=
  if c.closed then { c with panicked := true } else { c with closed := true }

/-! ## Byte-level helpers for the WAV header (binary.Write, LittleEndian) -/

/-- Little-endian serialization of a `uint16`. -/
def u16le (n : Nat) : List Nat := [n % 256, n / 256 % 256]

/-- Little-endian serialization of a `uint32`. -/
def u32le (n : Nat) : List Nat :=
  [n % 256, n / 256 % 256, n / 65536 % 256, n / 16777216 % 256]

/-- The bytes of a 4-character ASCII tag such as "RIFF". -/
def tag4 (s : String) : List Nat := s.toList.map Char.toNat

/-- The 44-byte provisional WAV header written by `CreateStream`
(recorder.go lines 76-174 and the identical Whisper code): RIFF chunk with
zero ChunkSize, "WAVE", "fmt " subchunk (PCM, mono, 48000 Hz, ByteRate
96000, BlockAlign 2, 16 bits), "data" subchunk with zero Subchunk2Size.
Both size fields are patched later by `Close`. -/
def wavHeaderBytes : List Nat :=
  tag4 "RIFF" ++ u32le 0 ++ tag4 "WAVE" ++ tag4 "fmt " ++ u32le 16 ++
  u16le 1 ++ u16le 1 ++ u32le 48000 ++ u32le 96000 ++ u16le 2 ++
  u16le 16 ++ tag4 "data" ++ u32le 0

/-- `file.Seek(off, 0)` followed by writing `bs`: overwrite `bs.length`
bytes of `file` starting at byte offset `off`. -/
def patchBytes (file : List Nat) (off : Nat) (bs : List Nat) : List Nat :=
  file.take off ++ bs ++ file.drop (off + bs.length)

/-- Read a little-endian `uint32` from byte offset `off` of a file
(0 if the file is too short, which never arises below). -/
def readU32le (file : List Nat) (off : Nat) : Nat :=
  match file.drop off with
  | b0 :: b1 :: b2 :: b3 :: _ => b0 + 256 * b1 + 65536 * b2 + 16777216 * b3
  | _ => 0

/-! ## RecorderStream (internal/transcribe/recorder.go) -/

/-- `RecorderStream`: the WAV file being written (content and whether it is
still on disk), the buffered result channel, the generated file name and
path, and the close flag guarded by the mutex. -/
structure RecorderStream where
  fileBytes : List Nat
  fileOnDisk : Bool
  results : ResultChan
  fileName : String
  filePath : String
  isClosed : Bool
deriving Repr, DecidableEq

/-- `RecorderTranscriber`: output directory and the locked filename
counter. -/
structure RecorderTranscriber where
  outputDir : String
  counter : Nat
deriving Repr, DecidableEq

/-- `%03d` formatting of the stream counter. -/
def padNum3 (n : Nat) : String :=
  if n < 10 then "00" ++ toString n
  else if n < 100 then "0" ++ toString n
  else toString n

/-- The state of a recorder stream as `CreateStream` returns it: the
provisional 44-byte header on disk, a fresh result channel, not closed. -/
def freshRecorderStream (fileName filePath : String) : RecorderStream :=
  { fileBytes := wavHeaderBytes
    fileOnDisk := true
    results := ResultChan.fresh
    fileName := fileName
    filePath := filePath
    isClosed := false }

/-- `RecorderTranscriber.CreateStream` (recorder.go lines 53-186):
increment the counter under the lock, derive the unique file name from the
timestamp `ts` and the counter, create the file and write the provisional
header.  Returns the updated transcriber and the fresh stream. -/
def RecorderTranscriber.createStream (r : RecorderTranscriber) (ts : String) :
    RecorderTranscriber × RecorderStream :=
  let counter := r.counter + 1
  let fileName := "recording_" ++ ts ++ "_" ++ padNum3 counter ++ ".wav"
  ({ r with counter := counter },
   freshRecorderStream fileName (r.outputDir ++ "/" ++ fileName))

/-- `RecorderStream.Write` (recorder.go lines 410-438): under the mutex,
fail with "stream is closed" if the stream is closed, otherwise append the
buffer to the file. -/
def RecorderStream.write (rs : RecorderStream) (buffer : List Nat) :
    Except String Nat × RecorderStream :=
  if rs.isClosed then (Except.error "stream is closed", rs)
  else (Except.ok buffer.length, { rs with fileBytes := rs.fileBytes ++ buffer })

/-- `RecorderStream.Close` (recorder.go lines 194-288): the `isClosed`
guard makes repeat calls no-ops; otherwise mark closed, stat the file
(Go truncates the size to `uint32`), reject files shorter than the 44-byte
header (removing them), patch ChunkSize = fileSize - 8 at offset 4 and
Subchunk2Size = fileSize - 44 at offset 40, close the file, push the single
`Result{Text: fileName, Confidence: 1.0, Final: true}` and close the result
channel. -/
def RecorderStream.close (rs : RecorderStream) :
    Except String Unit × RecorderStream :=
  if rs.isClosed then (Except.ok (), rs)
  else
    let rs1 := { rs with isClosed := true }
    let fileSize := rs1.fileBytes.length % 2 ^ 32
    if fileSize < 44 then
      (Except.error ("file too small for WAV header: " ++ toString fileSize ++ " bytes"),
       { rs1 with fileOnDisk := false })
    else
      let chunkSize := fileSize - 8
      let audioDataSize := fileSize - 44
      let rs2 := { rs1 with
        fileBytes := patchBytes (patchBytes rs1.fileBytes 4 (u32le chunkSize)) 40
          (u32le audioDataSize) }
      let res : Result := { text := rs2.fileName, confidence := 1, final := true }
      (Except.ok (), { rs2 with results := (rs2.results.push res).closeChan })

/-- Feed a list of PCM chunks to a recorder stream with successive `Write`
calls (the pump writes one decoded packet at a time). -/
def RecorderStream.writeAll (rs : RecorderStream) : List (List Nat) → RecorderStream
  | [] => rs
  | c :: cs => ((rs.write c).2).writeAll cs

/-- One whole batch session on a fresh recorder stream: write every chunk,
then close. -/
def recorderRun (fileName filePath : String) (chunks : List (List Nat)) :
    Except String Unit × RecorderStream :=
  ((freshRecorderStream fileName filePath).writeAll chunks).close

/-! ## WhisperStream (the Whisper batch backend, same package) -/

/-- `WhisperStream`: the temporary WAV file (content, on-disk flag), the
buffered result channel, the per-stream language and transcribe flag, the
close flag, and the transcriber's WAV-retention flag (the stream holds a
pointer to its transcriber; `keepWav` is the only transcriber field
`Close` consults — `keepTxt` is consumed inside `transcribeAudio`, which is
abstracted below). -/
structure WhisperStream where
  filePath : String
  fileBytes : List Nat
  fileOnDisk : Bool
  results : ResultChan
  language : String
  transcribe : Bool
  isClosed : Bool
  keepWav : Bool
deriving Repr, DecidableEq

/-- `WhisperTranscriber`: model path, executable path, output directory,
default language, retention flags and the locked stream counter. -/
structure WhisperTranscriber where
  modelPath : String
  whisperPath : String
  tempDir : String
  language : String
  counter : Nat
  keepWav : Bool
  keepTxt : Bool
deriving Repr, DecidableEq

/-- `WhisperTranscriber.CreateStreamWithOptions`: increment the counter
under the lock, fall back to the transcriber's default language when
`opts.Language` is empty, take the transcribe flag from the options, create
the temp WAV file and write the provisional header.  `ts` is the timestamp
used in the generated file name. -/
def WhisperTranscriber.createStreamWithOptions (w : WhisperTranscriber)
    (opts : StreamOptions) (ts : String) : WhisperTranscriber × WhisperStream :=
  let counter := w.counter + 1
  let language := if opts.language = "" then w.language else opts.language
  let fileName := "whisper_audio_" ++ toString counter ++ "_" ++ ts ++ ".wav"
  ({ w with counter := counter },
   { filePath := w.tempDir ++ "/" ++ fileName
     fileBytes := wavHeaderBytes
     fileOnDisk := true
     results := ResultChan.fresh
     language := language
     transcribe := opts.transcribe
     isClosed := false
     keepWav := w.keepWav })

/-- `WhisperTranscriber.CreateStream`: delegates to
`CreateStreamWithOptions` with the default language and transcription
enabled. -/
def WhisperTranscriber.createStream (w : WhisperTranscriber) (ts : String) :
    WhisperTranscriber × WhisperStream :=
  w.createStreamWithOptions { language := w.language, transcribe := true } ts

/-- `WhisperStream.Write`: under the mutex, fail with "stream is closed"
after close, otherwise append the buffer to the temp file. -/
def WhisperStream.write (ws : WhisperStream) (buffer : List Nat) :
    Except String Nat × WhisperStream :=
  if ws.isClosed then (Except.error "stream is closed", ws)
  else (Except.ok buffer.length, { ws with fileBytes := ws.fileBytes ++ buffer })

/-- `WhisperStream.Close`.  `recog` abstracts the outcome of
`transcribeAudio` (running the external Whisper executable and reading the
.txt output): `.error e` when the invocation or the output read fails,
`.ok (text, textFile)` on success.  The returned `Bool` reports whether the
recognizer was invoked by this call.  Faithful branch order: the `isClosed`
guard; stat (size truncated to `uint32`); the under-44-bytes rejection
(remove the file, return an error); the header patch at offsets 4 and 40;
the `fileSize == 44` empty-audio branch (remove the file, close the
channel, no result, no recognition); the record-only branch
(`transcribe == false`: one fixed result naming the kept WAV, no
recognition); otherwise invoke recognition, push the error result
(confidence 0) or the success result (confidence 0.9), remove the WAV
unless `keepWav`, and close the channel. -/
def WhisperStream.close (ws : WhisperStream)
    (recog : Except String (String × String)) :
    Except String Unit × WhisperStream × Bool :=
  if ws.isClosed then (Except.ok (), ws, false)
  else
    let ws1 := { ws with isClosed := true }
    let fileSize := ws1.fileBytes.length % 2 ^ 32
    if fileSize < 44 then
      (Except.error ("file too small for WAV header: " ++ toString fileSize ++ " bytes"),
       { ws1 with fileOnDisk := false }, false)
    else
      let chunkSize := fileSize - 8
      let audioDataSize := fileSize - 44
      let ws2 := { ws1 with
        fileBytes := patchBytes (patchBytes ws1.fileBytes 4 (u32le chunkSize)) 40
          (u32le audioDataSize) }
      if fileSize = 44 then
        (Except.ok (),
         { ws2 with fileOnDisk := false, results := ws2.results.closeChan }, false)
      else if ws2.transcribe = false then
        let res : Result :=
          { text := "Recording saved (transcription disabled)", confidence := 1,
            final := true, audioFile := ws2.filePath }
        (Except.ok (), { ws2 with results := (ws2.results.push res).closeChan }, false)
      else
        let res : Result :=
          match recog with
          | Except.error e =>
              { text := "Transcription error: " ++ e, confidence := 0,
                final := true, audioFile := ws2.filePath }
          | Except.ok (text, textFile) =>
              { text := text, confidence := 9 / 10, final := true,
                audioFile := ws2.filePath, textFile := textFile }
        let ws3 := { ws2 with
          fileOnDisk := if ws2.keepWav then ws2.fileOnDisk else false,
          results := ((ws2.results.push res)).closeChan }
        (Except.ok (), ws3, true)

/-- Feed a list of PCM chunks to a Whisper stream with successive `Write`
calls. -/
def WhisperStream.writeAll (ws : WhisperStream) : List (List Nat) → WhisperStream
  | [] => ws
  | c :: cs => ((ws.write c).2).writeAll cs

/-- One whole batch session on a fresh Whisper stream: write every chunk,
then close with recognition outcome `recog`. -/
def whisperRun (filePath language : String) (transcribeFlag keepWav : Bool)
    (chunks : List (List Nat)) (recog : Except String (String × String)) :
    Except String Unit × WhisperStream × Bool :=
  (WhisperStream.writeAll
    { filePath := filePath
      fileBytes := wavHeaderBytes
      fileOnDisk := true
      results := ResultChan.fresh
      language := language
      transcribe := transcribeFlag
      isClosed := false
      keepWav := keepWav } chunks).close recog

/-! ## Streaming WebSocket backends -/

/-- A WebSocket connection carrying frames of type `μ`: whether the
underlying transport is still open, and the frames actually transmitted. -/
structure WsConn (μ : Type) where
  isOpen : Bool
  msgs : List μ
deriving Repr, DecidableEq

/-- `conn.WriteMessage`: transmit on an open connection; once the transport
has been closed, fail with the net-package error without transmitting. -/
def WsConn.writeMessage {μ : Type} (c : WsConn μ) (m : μ) :
    Except String (WsConn μ) :=
  if c.isOpen then Except.ok { c with msgs := c.msgs ++ [m] }
  else Except.error "use of closed network connection"

/-- `conn.Close`: close the transport (errors from re-closing are only
logged by every caller in this repository). -/
def WsConn.closeConn {μ : Type} (c : WsConn μ) : WsConn μ :=
  { c with isOpen := false }

/-- One Xunfei request frame, identified by its `Data.Status` marker
(0 = configuration handshake, 1 = audio chunk, 2 = end of stream) and the
audio payload (the pre-base64 bytes; the common/business envelope fields
are the same fixed constants on every frame). -/
structure XunfeiFrame where
  status : Nat
  audio : List Nat
deriving Repr, DecidableEq

/-- `IflyTekStream`: the WebSocket connection and the unbuffered result
channel.  Note there is no close flag. -/
structure IflyTekStream where
  conn : WsConn XunfeiFrame
  results : ResultChan
deriving Repr, DecidableEq

/-- The state of an IflyTek stream as `CreateStream` returns it: connected,
configuration handshake (status 0) already sent, fresh result channel. -/
def freshIflyTekStream : IflyTekStream :=
  { conn := { isOpen := true, msgs := [⟨0, []⟩] }, results := ResultChan.fresh }

/-- `IflyTekStream.Close` (iflytek.go lines 162-196): marshal the
end-of-stream frame (status 2) and send it, discarding any send error;
close the WebSocket (logging any error); then `close(st.results)` —
unconditionally, with no closed-state guard.  Always returns nil. -/
def IflyTekStream.close (st : IflyTekStream) :
    Except String Unit × IflyTekStream :=
  let conn1 :=
    match st.conn.writeMessage ⟨2, []⟩ with
    | Except.ok c => c
    | Except.error _ => st.conn
  (Except.ok (),
   { conn := conn1.closeConn, results := st.results.closeChan })

/-- `IflyTekStream.Write` (iflytek.go lines 198-229): marshal an audio
frame (status 1) carrying the base64-encoded buffer and send it; a send
failure is wrapped as "failed to send audio data".  No closed-state
guard. -/
def IflyTekStream.write (st : IflyTekStream) (buffer : List Nat) :
    Except String Nat × IflyTekStream :=
  match st.conn.writeMessage ⟨1, buffer⟩ with
  | Except.ok c => (Except.ok buffer.length, { st with conn := c })
  | Except.error e =>
      (Except.error ("failed to send audio data: " ++ e), st)

/-- One Azure Speech WebSocket message: the speech.config handshake, an
audio chunk, or the audio.end marker. -/
inductive AzureMsg where
  | config : AzureMsg
  | audio : List Nat → AzureMsg
  | audioEnd : AzureMsg
deriving Repr, DecidableEq

/-- `AzureStream`: the WebSocket connection and the buffered result
channel.  Like the IflyTek stream, there is no close flag. -/
structure AzureStream where
  conn : WsConn AzureMsg
  results : ResultChan
deriving Repr, DecidableEq

/-- The state of an Azure stream as `CreateStream` returns it. -/
def freshAzureStream : AzureStream :=
  { conn := { isOpen := true, msgs := [AzureMsg.config] }, results := ResultChan.fresh }

/-- `AzureStream.Close`: send the audio.end marker (logging any error),
close the WebSocket (logging any error), then `close(as.results)` with no
closed-state guard.  Always returns nil. -/
def AzureStream.close (as : AzureStream) :
    Except String Unit × AzureStream :=
  let conn1 :=
    match as.conn.writeMessage AzureMsg.audioEnd with
    | Except.ok c => c
    | Except.error _ => as.conn
  (Except.ok (),
   { conn := conn1.closeConn, results := as.results.closeChan })

/-- `AzureStream.Write`: send one audio message; a send failure is wrapped
as "failed to send audio data".  No closed-state guard. -/
def AzureStream.write (as : AzureStream) (buffer : List Nat) :
    Except String Nat × AzureStream :=
  match as.conn.writeMessage (AzureMsg.audio buffer) with
  | Except.ok c => (Except.ok buffer.length, { as with conn := c })
  | Except.error e =>
      (Except.error ("failed to send audio data: " ++ e), as)

/-! ## Baidu and Google backends (for the factory contract)

The Baidu stream mirrors the Azure one; the Google Speech backend's source
file is not present in the repository snapshot, so it is modelled from the
spec's factory contract only. -/

/-- `BaiduStream`: WebSocket connection (audio chunks and the end marker)
and the buffered result channel. -/
structure BaiduStream where
  conn : WsConn AzureMsg
  results : ResultChan
deriving Repr, DecidableEq

/-- The state of a Baidu stream as `CreateStream` returns it (the Baidu
dialer sends no configuration frame). -/
def freshBaiduStream : BaiduStream :=
  { conn := { isOpen := true, msgs := [] }, results := ResultChan.fresh }

/-- `BaiduStream.Close`: send the end marker (logging any error), close the
WebSocket (logging any error), then `close(bs.results)` with no
closed-state guard.  Always returns nil. -/
def BaiduStream.close (bs : BaiduStream) :
    Except String Unit × BaiduStream :=
  let conn1 :=
    match bs.conn.writeMessage AzureMsg.audioEnd with
    | Except.ok c => c
    | Except.error _ => bs.conn
  (Except.ok (),
   { conn := conn1.closeConn, results := bs.results.closeChan })

/-- `BaiduStream.Write`: send one audio message (the source hashes the
buffer before encoding; the model keeps the raw bytes); a send failure is
wrapped as "failed to send audio data".  No closed-state guard. -/
def BaiduStream.write (bs : BaiduStream) (buffer : List Nat) :
    Except String Nat × BaiduStream :=
  match bs.conn.writeMessage (AzureMsg.audio buffer) with
  | Except.ok c => (Except.ok buffer.length, { bs with conn := c })
  | Except.error e =>
      (Except.error ("failed to send audio data: " ++ e), bs)

/-- Modelled from the spec: the Google Speech backend source file is
missing from the snapshot; per the factory contract it creates streams
whose options (language, transcribe flag) may be overridden per call. -/
structure GoogleStream where
  language : String
  transcribe : Bool
  results : ResultChan
deriving Repr, DecidableEq

/-- `GoogleSpeech` service configuration (credentials file), modelled from
the spec: the source file is missing from the snapshot. -/
structure GoogleSpeech where
  cred : String
deriving Repr, DecidableEq

/-- Modelled from the spec: `GoogleSpeech.CreateStreamWithOptions` is
missing from the snapshot; per the contract it creates a stream with the
per-call language and transcribe-enable flag applied. -/
def GoogleSpeech.createStreamWithOptions (_g : GoogleSpeech)
    (opts : StreamOptions) : GoogleStream :=
  { language := opts.language, transcribe := opts.transcribe,
    results := ResultChan.fresh }

/-- Modelled from the spec: `GoogleSpeech.CreateStream` creates a stream
with the backend defaults (automatic language, transcription enabled). -/
def GoogleSpeech.createStream (g : GoogleSpeech) : GoogleStream :=
  g.createStreamWithOptions { language := "auto", transcribe := true }

/-- `IflyTekTranscriber` configuration. -/
structure IflyTekTranscriber where
  appID : String
  apiKey : String
  apiSecret : String
  appUrl : String
deriving Repr, DecidableEq

/-- `IflyTekTranscriber.CreateStream` (iflytek.go lines 80-152): dial the
signed WebSocket URL and send the configuration handshake (transport
assumed reachable in the model). -/
def IflyTekTranscriber.createStream (_t : IflyTekTranscriber) : IflyTekStream :=
  freshIflyTekStream

/-- Modelled from the spec: `IflyTekTranscriber.CreateStreamWithOptions` is
not in the snapshot; the Xunfei adapter hard-codes its language/domain
envelope (spec section 9, open question), so the options have no observable
effect and the call creates the same stream as `CreateStream`. -/
def IflyTekTranscriber.createStreamWithOptions (t : IflyTekTranscriber)
    (_opts : StreamOptions) : IflyTekStream :=
  t.createStream

/-- `AzureTranscriber` configuration. -/
structure AzureTranscriber where
  subscriptionKey : String
  region : String
deriving Repr, DecidableEq

/-- `AzureTranscriber.CreateStream`: dial the regional endpoint and send
the speech.config handshake. -/
def AzureTranscriber.createStream (_a : AzureTranscriber) : AzureStream :=
  freshAzureStream

/-- Modelled from the spec: `AzureTranscriber.CreateStreamWithOptions` is
not in the snapshot; the Azure adapter's envelope is fixed, so the call
creates the same stream as `CreateStream`. -/
def AzureTranscriber.createStreamWithOptions (a : AzureTranscriber)
    (_opts : StreamOptions) : AzureStream :=
  a.createStream

/-- `BaiduTranscriber` configuration. -/
structure BaiduTranscriber where
  appID : String
  apiKey : String
  secretKey : String
deriving Repr, DecidableEq

/-- `BaiduTranscriber.CreateStream`: obtain the access token and dial the
realtime endpoint (transport assumed reachable in the model). -/
def BaiduTranscriber.createStream (_b : BaiduTranscriber) : BaiduStream :=
  freshBaiduStream

/-- Modelled from the spec: `BaiduTranscriber.CreateStreamWithOptions` is
not in the snapshot; the Baidu adapter's envelope is fixed, so the call
creates the same stream as `CreateStream`. -/
def BaiduTranscriber.createStreamWithOptions (b : BaiduTranscriber)
    (_opts : StreamOptions) : BaiduStream :=
  b.createStream

/-- Modelled from the spec: `RecorderTranscriber.CreateStreamWithOptions`
is not in the snapshot; the recorder only persists audio and never invokes
recognition, so the options have no observable effect and the call creates
the same stream as `CreateStream`. -/
def RecorderTranscriber.createStreamWithOptions (r : RecorderTranscriber)
    (_opts : StreamOptions) (ts : String) : RecorderTranscriber × RecorderStream :=
  r.createStream ts

/-! ## The audio pump (internal/rtc/pion.go, handleAudioTrack)

`handleAudioTrack` runs two goroutines joined by a one-packet handshake:

* reader: `ReadRTP` one packet, reset the 5-second idle timer, send the
  payload on `audioStream`, then block on `<-response` before reading the
  next packet (pion.go lines 113-148);
* consumer: receive a payload, decode it; on decode failure `continue`
  without touching `response`; on success send `response <- true` and
  `Write` the PCM to the transcription stream (lines 151-177).

Because `response <- true` is only executed on the successful-decode path,
a decode failure leaves the reader blocked on `<-response` forever: no
further packet is read, the idle timer fires 5 seconds later, `cancel()`
runs and the loop returns nil (the timeout branch, lines 179-182).  The
sequential model below is exact for this handshake: at most one packet is
in flight, so the pump processes packets in order and stops at the first
undecodable one. -/

/-- How the pump loop of `handleAudioTrack` terminated. -/
inductive PumpExit where
  | eof : PumpExit
  | timeout : PumpExit
deriving Repr, DecidableEq

/-- The pump over the finite packet sequence the track delivers before
EOF: the PCM chunks written to the transcription stream (in order) and the
exit reason.  `decode` is the Opus decoder (`none` = decode failure).
All packets decode: every decoded payload is written and the reader sees
EOF.  A packet fails to decode: the decoded payloads of the packets before
it have been written, the reader (never released by a `response`) reads
nothing further, and the idle timer ends the session. -/
def pumpRun (decode : List Nat → Option (List Nat)) :
    List (List Nat) → List (List Nat) × PumpExit
  | [] => ([], PumpExit.eof)
  | p :: ps =>
      match decode p with
      | some pcm =>
          let rest := pumpRun decode ps
          (pcm :: rest.1, rest.2)
      | none => ([], PumpExit.timeout)

/-- The decoder used in the concrete decode-failure scenario: packet `[2]`
is the corrupted one, every other packet decodes to its own payload. -/
def decodeBad2 (p : List Nat) : Option (List Nat) :=
  if p = [2] then none else some p

/-- The outbound data channel: the results relayed so far (JSON
serialization of a `Result` is total and injective, so messages are kept as
`Result` values) and whether `dc.Close()` has run. -/
structure DataChannelState where
  relayed : List Result
  dcClosed : Bool
deriving Repr, DecidableEq

/-- The deferred block of `handleAudioTrack` (pion.go lines 83-101), run on
every pump-loop exit: call `trStream.Close()`; if it returns an error, log
and return — skipping the drain and the data-channel close; otherwise
range over the result channel, relaying each result over the data channel
(`json.Marshal` of a `Result` cannot fail, and a `dc.Send` error is only
logged), then `dc.Close()`.  `closeErr` is the stream's close result and
`pending` the contents of its result channel. -/
def sessionCleanup (closeErr : Option String) (pending : List Result)
    (dc : DataChannelState) : DataChannelState :=
  match closeErr with
  | some _ => dc
  | none => { relayed := dc.relayed ++ pending, dcClosed := true }

/-! ## Helper lemmas: the WAV header patch -/

/-- Bytes 0..3 of the header ("RIFF"). -/
def wavHdrPre : List Nat := [82, 73, 70, 70]

/-- Bytes 8..39 of the header ("WAVE", "fmt " subchunk, "data"). -/
def wavHdrMid : List Nat :=
  [87, 65, 86, 69, 102, 109, 116, 32, 16, 0, 0, 0, 1, 0, 1, 0,
   128, 187, 0, 0, 0, 119, 1, 0, 2, 0, 16, 0, 100, 97, 116, 97]

theorem wavHeaderBytes_length : wavHeaderBytes.length = 44 := by decide

/-- Patching the two size fields of a header-plus-audio file rewrites
exactly bytes 4..7 and 40..43. -/
theorem patch_header_shape (J : List Nat) (n m : Nat) :
    patchBytes (patchBytes (wavHeaderBytes ++ J) 4 (u32le n)) 40 (u32le m) =
      wavHdrPre ++ u32le n ++ wavHdrMid ++ u32le m ++ J := rfl

theorem readU32le_u32le (n : Nat) (rest : List Nat) :
    readU32le (u32le n ++ rest) 0 = n % 2 ^ 32 := by
  show n % 256 + 256 * (n / 256 % 256) + 65536 * (n / 65536 % 256) +
      16777216 * (n / 16777216 % 256) = n % 2 ^ 32
  have h : (2 : Nat) ^ 32 = 4294967296 := by norm_num
  rw [h]
  omega

theorem readU32le_patched_at4 (J : List Nat) (n m : Nat) :
    readU32le (wavHdrPre ++ u32le n ++ wavHdrMid ++ u32le m ++ J) 4 = n % 2 ^ 32 := by
  have h : readU32le (wavHdrPre ++ u32le n ++ wavHdrMid ++ u32le m ++ J) 4 =
      readU32le (u32le n ++ (wavHdrMid ++ u32le m ++ J)) 0 := rfl
  rw [h, readU32le_u32le]

theorem readU32le_patched_at40 (J : List Nat) (n m : Nat) :
    readU32le (wavHdrPre ++ u32le n ++ wavHdrMid ++ u32le m ++ J) 40 = m % 2 ^ 32 := by
  have h : readU32le (wavHdrPre ++ u32le n ++ wavHdrMid ++ u32le m ++ J) 40 =
      readU32le (u32le m ++ J) 0 := rfl
  rw [h, readU32le_u32le]

theorem patched_length (J : List Nat) (n m : Nat) :
    (wavHdrPre ++ u32le n ++ wavHdrMid ++ u32le m ++ J).length = 44 + J.length := by
  simp [wavHdrPre, wavHdrMid, u32le]
  omega

/-! ## Helper lemmas: batch-stream runs -/

theorem recorder_writeAll_eq (cs : List (List Nat)) (rs : RecorderStream)
    (h : rs.isClosed = false) :
    rs.writeAll cs = { rs with fileBytes := rs.fileBytes ++ cs.flatten } := by
  induction cs generalizing rs with
  | nil => simp [RecorderStream.writeAll]
  | cons c cs ih =>
      simp only [RecorderStream.writeAll, RecorderStream.write, h]
      rw [if_neg (by simp [h])]
      rw [ih _ (by simp [h])]
      simp [List.append_assoc]

theorem whisper_writeAll_eq (cs : List (List Nat)) (ws : WhisperStream)
    (h : ws.isClosed = false) :
    ws.writeAll cs = { ws with fileBytes := ws.fileBytes ++ cs.flatten } := by
  induction cs generalizing ws with
  | nil => simp [WhisperStream.writeAll]
  | cons c cs ih =>
      simp only [WhisperStream.writeAll, WhisperStream.write, h]
      rw [if_neg (by simp [h])]
      rw [ih _ (by simp [h])]
      simp [List.append_assoc]

/-- Closing a fresh recorder stream whose file holds the header plus `J`
audio bytes, when the truncated size passes the 44-byte guard. -/
theorem recorder_close_header_ok (fn fp : String) (J : List Nat)
    (h : ¬ (44 + J.length) % 2 ^ 32 < 44) :
    RecorderStream.close
      { fileBytes := wavHeaderBytes ++ J, fileOnDisk := true,
        results := ResultChan.fresh, fileName := fn, filePath := fp,
        isClosed := false } =
      (Except.ok (),
       { fileBytes := wavHdrPre ++ u32le ((44 + J.length) % 2 ^ 32 - 8) ++
           wavHdrMid ++ u32le ((44 + J.length) % 2 ^ 32 - 44) ++ J
         fileOnDisk := true
         results := { sent := [{ text := fn, confidence := 1, final := true }],
                      closed := true, panicked := false }
         fileName := fn
         filePath := fp
         isClosed := true }) := by
  have hlen : (wavHeaderBytes ++ J).length = 44 + J.length := by
    rw [List.length_append, wavHeaderBytes_length]
  unfold RecorderStream.close
  simp only [hlen]
  rw [if_neg (by simp)]
  rw [if_neg (by simpa using h)]
  simp only [patch_header_shape]
  simp [ResultChan.push, ResultChan.closeChan, ResultChan.fresh]

/-- The characterization of a whole recorder session. -/
theorem recorderRun_ok (fn fp : String) (chunks : List (List Nat))
    (h : ¬ (44 + chunks.flatten.length) % 2 ^ 32 < 44) :
    recorderRun fn fp chunks =
      (Except.ok (),
       { fileBytes := wavHdrPre ++
           u32le ((44 + chunks.flatten.length) % 2 ^ 32 - 8) ++
           wavHdrMid ++ u32le ((44 + chunks.flatten.length) % 2 ^ 32 - 44) ++
           chunks.flatten
         fileOnDisk := true
         results := { sent := [{ text := fn, confidence := 1, final := true }],
                      closed := true, panicked := false }
         fileName := fn
         filePath := fp
         isClosed := true }) := by
  unfold recorderRun freshRecorderStream
  rw [recorder_writeAll_eq _ _ rfl]
  exact recorder_close_header_ok fn fp chunks.flatten h

/-- The fresh Whisper stream state used by `whisperRun`. -/
def freshWhisperStream (fp lang : String) (tf kw : Bool) : WhisperStream :=
  { filePath := fp
    fileBytes := wavHeaderBytes
    fileOnDisk := true
    results := ResultChan.fresh
    language := lang
    transcribe := tf
    isClosed := false
    keepWav := kw }

/-- A Whisper session whose audio (after `uint32` truncation) is judged
empty: the artifact is removed, no result is pushed, the channel is closed
and recognition is not invoked. -/
theorem whisperRun_empty (fp lang : String) (tf kw : Bool)
    (chunks : List (List Nat)) (recog : Except String (String × String))
    (h : (44 + chunks.flatten.length) % 2 ^ 32 = 44) :
    whisperRun fp lang tf kw chunks recog =
      (Except.ok (),
       { filePath := fp
         fileBytes := wavHdrPre ++ u32le ((44 : Nat) - 8) ++ wavHdrMid ++
           u32le 0 ++ chunks.flatten
         fileOnDisk := false
         results := { sent := [], closed := true, panicked := false }
         language := lang
         transcribe := tf
         isClosed := true
         keepWav := kw }, false) := by
  have hlen : (wavHeaderBytes ++ chunks.flatten).length = 44 + chunks.flatten.length := by
    rw [List.length_append, wavHeaderBytes_length]
  unfold whisperRun
  rw [show (WhisperStream.writeAll
      { filePath := fp, fileBytes := wavHeaderBytes, fileOnDisk := true,
        results := ResultChan.fresh, language := lang, transcribe := tf,
        isClosed := false, keepWav := kw } chunks) =
      { filePath := fp, fileBytes := wavHeaderBytes ++ chunks.flatten,
        fileOnDisk := true, results := ResultChan.fresh, language := lang,
        transcribe := tf, isClosed := false, keepWav := kw } from
    whisper_writeAll_eq chunks _ rfl]
  unfold WhisperStream.close
  simp only [hlen, h, patch_header_shape]
  simp [ResultChan.closeChan, ResultChan.fresh]

/-- A record-only Whisper session with non-degenerate audio: the WAV is
kept, recognition is not invoked, and the single fixed record-only result
is pushed before the channel closes. -/
theorem whisperRun_recordOnly (fp lang : String) (kw : Bool)
    (chunks : List (List Nat)) (recog : Except String (String × String))
    (hge : ¬ (44 + chunks.flatten.length) % 2 ^ 32 < 44)
    (hne : (44 + chunks.flatten.length) % 2 ^ 32 ≠ 44) :
    whisperRun fp lang false kw chunks recog =
      (Except.ok (),
       { filePath := fp
         fileBytes := wavHdrPre ++
           u32le ((44 + chunks.flatten.length) % 2 ^ 32 - 8) ++ wavHdrMid ++
           u32le ((44 + chunks.flatten.length) % 2 ^ 32 - 44) ++ chunks.flatten
         fileOnDisk := true
         results := { sent := [{ text := "Recording saved (transcription disabled)",
                                 confidence := 1, final := true, audioFile := fp }],
                      closed := true, panicked := false }
         language := lang
         transcribe := false
         isClosed := true
         keepWav := kw }, false) := by
  have hlen : (wavHeaderBytes ++ chunks.flatten).length = 44 + chunks.flatten.length := by
    rw [List.length_append, wavHeaderBytes_length]
  unfold whisperRun
  rw [show (WhisperStream.writeAll
      { filePath := fp, fileBytes := wavHeaderBytes, fileOnDisk := true,
        results := ResultChan.fresh, language := lang, transcribe := false,
        isClosed := false, keepWav := kw } chunks) =
      { filePath := fp, fileBytes := wavHeaderBytes ++ chunks.flatten,
        fileOnDisk := true, results := ResultChan.fresh, language := lang,
        transcribe := false, isClosed := false, keepWav := kw } from
    whisper_writeAll_eq chunks _ rfl]
  have hge' : ¬ (44 + (List.map List.length chunks).sum) % 4294967296 < 44 := by
    simpa using hge
  have hne' : ¬ (44 + (List.map List.length chunks).sum) % 4294967296 = 44 := by
    simpa using hne
  unfold WhisperStream.close
  simp only [hlen, patch_header_shape]
  simp [hge', hne', ResultChan.push, ResultChan.closeChan, ResultChan.fresh]

/-- A transcribing Whisper session with non-degenerate audio: recognition
is invoked; its outcome determines the single pushed result (error text
with confidence 0, or transcript with confidence 0.9); the WAV is removed
unless `keepWav`; the channel is closed. -/
theorem whisperRun_transcribing (fp lang : String) (kw : Bool)
    (chunks : List (List Nat)) (recog : Except String (String × String))
    (hge : ¬ (44 + chunks.flatten.length) % 2 ^ 32 < 44)
    (hne : (44 + chunks.flatten.length) % 2 ^ 32 ≠ 44) :
    whisperRun fp lang true kw chunks recog =
      (Except.ok (),
       { filePath := fp
         fileBytes := wavHdrPre ++
           u32le ((44 + chunks.flatten.length) % 2 ^ 32 - 8) ++ wavHdrMid ++
           u32le ((44 + chunks.flatten.length) % 2 ^ 32 - 44) ++ chunks.flatten
         fileOnDisk := if kw then true else false
         results := { sent := [match recog with
                               | Except.error e =>
                                   { text := "Transcription error: " ++ e,
                                     confidence := 0, final := true, audioFile := fp }
                               | Except.ok (text, textFile) =>
                                   { text := text, confidence := 9 / 10, final := true,
                                     audioFile := fp, textFile := textFile }],
                      closed := true, panicked := false }
         language := lang
         transcribe := true
         isClosed := true
         keepWav := kw }, true) := by
  have hlen : (wavHeaderBytes ++ chunks.flatten).length = 44 + chunks.flatten.length := by
    rw [List.length_append, wavHeaderBytes_length]
  unfold whisperRun
  rw [show (WhisperStream.writeAll
      { filePath := fp, fileBytes := wavHeaderBytes, fileOnDisk := true,
        results := ResultChan.fresh, language := lang, transcribe := true,
        isClosed := false, keepWav := kw } chunks) =
      { filePath := fp, fileBytes := wavHeaderBytes ++ chunks.flatten,
        fileOnDisk := true, results := ResultChan.fresh, language := lang,
        transcribe := true, isClosed := false, keepWav := kw } from
    whisper_writeAll_eq chunks _ rfl]
  have hge' : ¬ (44 + (List.map List.length chunks).sum) % 4294967296 < 44 := by
    simpa using hge
  have hne' : ¬ (44 + (List.map List.length chunks).sum) % 4294967296 = 44 := by
    simpa using hne
  unfold WhisperStream.close
  simp only [hlen, patch_header_shape]
  cases recog with
  | error e => simp [hge', hne', ResultChan.push, ResultChan.closeChan, ResultChan.fresh]
  | ok p =>
      obtain ⟨text, textFile⟩ := p
      simp [hge', hne', ResultChan.push, ResultChan.closeChan, ResultChan.fresh]

/-- A recorder session whose truncated file size fails the 44-byte guard:
`Close` reports the file as too small, removes it, and pushes nothing. -/
theorem recorderRun_short (fn fp : String) (chunks : List (List Nat))
    (hlt : (44 + chunks.flatten.length) % 2 ^ 32 < 44) :
    recorderRun fn fp chunks =
      (Except.error ("file too small for WAV header: " ++
         toString ((44 + chunks.flatten.length) % 2 ^ 32) ++ " bytes"),
       { fileBytes := wavHeaderBytes ++ chunks.flatten
         fileOnDisk := false
         results := ResultChan.fresh
         fileName := fn
         filePath := fp
         isClosed := true }) := by
  have hlen : (wavHeaderBytes ++ chunks.flatten).length = 44 + chunks.flatten.length := by
    rw [List.length_append, wavHeaderBytes_length]
  unfold recorderRun freshRecorderStream
  rw [recorder_writeAll_eq _ _ rfl]
  unfold RecorderStream.close
  simp only [hlen]
  rw [if_neg (by simp)]
  rw [if_pos hlt]

/-! ## Helper lemmas: close-state bookkeeping -/

theorem ResultChan.closeChan_closed (c : ResultChan) :
    (c.closeChan).closed = true := by
  unfold ResultChan.closeChan
  split
  next h => simpa using h
  next h => rfl

theorem ResultChan.closeChan_of_closed (c : ResultChan) (h : c.closed = true) :
    (c.closeChan).panicked = true := by
  unfold ResultChan.closeChan
  rw [if_pos h]

theorem recorder_close_sets_closed (rs : RecorderStream) :
    (rs.close.2).isClosed = true := by
  unfold RecorderStream.close
  split
  next h => exact h
  next h =>
    dsimp only
    split <;> rfl

theorem recorder_close_of_closed (rs : RecorderStream)
    (h : rs.isClosed = true) : rs.close = (Except.ok (), rs) := by
  unfold RecorderStream.close
  rw [if_pos h]

theorem whisper_close_sets_closed (ws : WhisperStream)
    (recog : Except String (String × String)) :
    ((ws.close recog).2.1).isClosed = true := by
  unfold WhisperStream.close
  split
  next h => exact h
  next h =>
    dsimp only
    split
    · rfl
    · split
      · rfl
      · split <;> rfl

theorem whisper_close_of_closed (ws : WhisperStream)
    (recog : Except String (String × String)) (h : ws.isClosed = true) :
    ws.close recog = (Except.ok (), ws, false) := by
  unfold WhisperStream.close
  rw [if_pos h]

theorem iflytek_close_results_closed (st : IflyTekStream) :
    (st.close.2).results.closed = true :=
  ResultChan.closeChan_closed st.results

theorem iflytek_close_conn_shut (st : IflyTekStream) :
    (st.close.2).conn.isOpen = false := rfl

theorem azure_close_results_closed (as : AzureStream) :
    (as.close.2).results.closed = true :=
  ResultChan.closeChan_closed as.results

theorem azure_close_conn_shut (as : AzureStream) :
    (as.close.2).conn.isOpen = false := rfl

theorem baidu_close_results_closed (bs : BaiduStream) :
    (bs.close.2).results.closed = true :=
  ResultChan.closeChan_closed bs.results

theorem baidu_close_conn_shut (bs : BaiduStream) :
    (bs.close.2).conn.isOpen = false := rfl

/-! ## Claim theorems -/

/-- Claim C1, counterexample.  The claim states that a second `Close` on
any backend's stream returns without error, releases nothing twice and
does not close the result channel twice.  On the Xunfei streaming stream
this is false: `IflyTekStream.Close` has no closed-state guard, so the
second call executes `close(st.results)` on the already-closed channel —
a Go runtime panic (`panicked = true` in the model) — while the first call
had closed it normally. -/
theorem iflytek_second_close_panics :
    ((freshIflyTekStream.close.2).close.2).results.panicked = true ∧
    (freshIflyTekStream.close.2).results.panicked = false := by
  exact ⟨rfl, rfl⟩

/-- Claim C1, amended: `Close` is idempotent for the batch streams — a
second call on a recorder or Whisper stream returns nil and changes
nothing (no resource released twice, no duplicate result, the channel
stays closed exactly once) — but on the streaming WebSocket streams
(IflyTek, Azure, Baidu) a second `Close` closes the already-closed result
channel, a runtime panic. -/
theorem close_idempotent_amended :
    (∀ rs : RecorderStream, (rs.close.2).close = (Except.ok (), rs.close.2)) ∧
    (∀ (ws : WhisperStream) (r1 r2 : Except String (String × String)),
      ((ws.close r1).2.1).close r2 = (Except.ok (), (ws.close r1).2.1, false)) ∧
    (∀ st : IflyTekStream, ((st.close.2).close.2).results.panicked = true) ∧
    (∀ as : AzureStream, ((as.close.2).close.2).results.panicked = true) ∧
    (∀ bs : BaiduStream, ((bs.close.2).close.2).results.panicked = true) := by
  refine ⟨fun rs => ?_, fun ws r1 r2 => ?_, fun st => ?_, fun as => ?_, fun bs => ?_⟩
  · exact recorder_close_of_closed _ (recorder_close_sets_closed rs)
  · exact whisper_close_of_closed _ r2 (whisper_close_sets_closed ws r1)
  · exact ResultChan.closeChan_of_closed _ (iflytek_close_results_closed st)
  · exact ResultChan.closeChan_of_closed _ (azure_close_results_closed as)
  · exact ResultChan.closeChan_of_closed _ (baidu_close_results_closed bs)

/-- Claim C2: after `Close` has returned, `Write` fails and performs no
I/O on the sink.  The batch streams reject with their own "stream is
closed" error and leave the file untouched; the streaming streams have no
closed-state guard of their own, but `Close` has already shut the
transport, so the attempted send fails with the transport's
closed-connection error and no frame is transmitted.  In each case the
stream state (file bytes, socket frames) is unchanged. -/
theorem write_after_close_rejected :
    (∀ (rs : RecorderStream) (buf : List Nat),
      (rs.close.2).write buf = (Except.error "stream is closed", rs.close.2)) ∧
    (∀ (ws : WhisperStream) (r : Except String (String × String)) (buf : List Nat),
      ((ws.close r).2.1).write buf =
        (Except.error "stream is closed", (ws.close r).2.1)) ∧
    (∀ (st : IflyTekStream) (buf : List Nat),
      (st.close.2).write buf =
        (Except.error "failed to send audio data: use of closed network connection",
         st.close.2)) ∧
    (∀ (as : AzureStream) (buf : List Nat),
      (as.close.2).write buf =
        (Except.error "failed to send audio data: use of closed network connection",
         as.close.2)) ∧
    (∀ (bs : BaiduStream) (buf : List Nat),
      (bs.close.2).write buf =
        (Except.error "failed to send audio data: use of closed network connection",
         bs.close.2)) := by
  refine ⟨fun rs buf => ?_, fun ws r buf => ?_, fun st buf => rfl,
    fun as buf => rfl, fun bs buf => rfl⟩
  · simp [RecorderStream.write, recorder_close_sets_closed rs]
  · simp [WhisperStream.write, whisper_close_sets_closed ws r]

/-- Claim C3, counterexample.  The claim quantifies over every finite
sequence of PCM chunks, but `Close` truncates the stat-reported size with
`uint32(fileInfo.Size())`: writing a single 2^32-byte chunk yields a
truncated size of 44, the close succeeds, and the data-subchunk size field
at offset 40 reads 0, not the 2^32-byte sum of the chunk lengths. -/
theorem wav_size_fields_overflow :
    (recorderRun "r.wav" "rec/r.wav" [List.replicate (2 ^ 32) 0]).1 = Except.ok () ∧
    readU32le (recorderRun "r.wav" "rec/r.wav"
      [List.replicate (2 ^ 32) 0]).2.fileBytes 40 = 0 ∧
    (([List.replicate (2 ^ 32) (0 : Nat)]).map List.length).sum = 2 ^ 32 ∧
    (0 : Nat) ≠ 2 ^ 32 := by
  have hflat : ([List.replicate (2 ^ 32) (0 : Nat)]).flatten.length = 2 ^ 32 := by
    rw [List.flatten_cons, List.flatten_nil, List.append_nil, List.length_replicate]
  have h32 : (2 : Nat) ^ 32 = 4294967296 := by norm_num
  have hmod : (44 + ([List.replicate (2 ^ 32) (0 : Nat)]).flatten.length) % 2 ^ 32 = 44 := by
    rw [hflat, h32]
  have hge : ¬ (44 + ([List.replicate (2 ^ 32) (0 : Nat)]).flatten.length) % 2 ^ 32 < 44 := by
    rw [hmod]; omega
  rw [recorderRun_ok _ _ _ hge]
  refine ⟨rfl, ?_, ?_, by norm_num⟩
  · show readU32le (wavHdrPre ++
      u32le ((44 + ([List.replicate (2 ^ 32) (0 : Nat)]).flatten.length) % 2 ^ 32 - 8) ++
      wavHdrMid ++
      u32le ((44 + ([List.replicate (2 ^ 32) (0 : Nat)]).flatten.length) % 2 ^ 32 - 44) ++
      ([List.replicate (2 ^ 32) (0 : Nat)]).flatten) 40 = 0
    rw [hmod, readU32le_patched_at40]
    norm_num
  · rw [List.map_cons, List.map_nil, List.length_replicate, List.sum_cons,
      List.sum_nil, Nat.add_zero]

/-- Claim C3, amended: provided the header plus the total audio is smaller
than 2^32 bytes (the WAV size fields and the size computation are 32-bit),
a successfully closed batch stream's file has Subchunk2Size (offset 40)
equal to the sum of the written chunk lengths, ChunkSize (offset 4) equal
to the file length minus 8, and file length 44 plus the audio bytes; the
same holds for the Whisper batch stream's finalized file (shown in
record-only mode, where the file is retained). -/
theorem wav_size_fields_correct (fn fp : String) (chunks : List (List Nat))
    (hbound : 44 + (chunks.map List.length).sum < 2 ^ 32) :
    (recorderRun fn fp chunks).1 = Except.ok () ∧
    readU32le (recorderRun fn fp chunks).2.fileBytes 40 =
      (chunks.map List.length).sum ∧
    readU32le (recorderRun fn fp chunks).2.fileBytes 4 =
      (recorderRun fn fp chunks).2.fileBytes.length - 8 ∧
    (recorderRun fn fp chunks).2.fileBytes.length =
      44 + (chunks.map List.length).sum ∧
    (chunks.flatten ≠ [] → ∀ (lang : String) (kw : Bool)
        (recog : Except String (String × String)),
      readU32le (whisperRun fp lang false kw chunks recog).2.1.fileBytes 40 =
        (chunks.map List.length).sum ∧
      (whisperRun fp lang false kw chunks recog).2.1.fileBytes.length =
        44 + (chunks.map List.length).sum) := by
  have hflat : chunks.flatten.length = (chunks.map List.length).sum := by simp
  have hsum : (chunks.map List.length).sum < 2 ^ 32 := by omega
  have hmod : (44 + chunks.flatten.length) % 2 ^ 32 =
      44 + (chunks.map List.length).sum := by
    rw [hflat]; exact Nat.mod_eq_of_lt hbound
  have hge : ¬ (44 + chunks.flatten.length) % 2 ^ 32 < 44 := by rw [hmod]; omega
  refine ⟨?_, ?_, ?_, ?_, ?_⟩
  · rw [recorderRun_ok _ _ _ hge]
  · rw [recorderRun_ok _ _ _ hge]
    show readU32le (wavHdrPre ++
      u32le ((44 + chunks.flatten.length) % 2 ^ 32 - 8) ++ wavHdrMid ++
      u32le ((44 + chunks.flatten.length) % 2 ^ 32 - 44) ++ chunks.flatten) 40 = _
    rw [hmod, readU32le_patched_at40]
    simpa using Nat.mod_eq_of_lt hsum
  · rw [recorderRun_ok _ _ _ hge]
    show readU32le (wavHdrPre ++
      u32le ((44 + chunks.flatten.length) % 2 ^ 32 - 8) ++ wavHdrMid ++
      u32le ((44 + chunks.flatten.length) % 2 ^ 32 - 44) ++ chunks.flatten) 4 =
      (wavHdrPre ++
      u32le ((44 + chunks.flatten.length) % 2 ^ 32 - 8) ++ wavHdrMid ++
      u32le ((44 + chunks.flatten.length) % 2 ^ 32 - 44) ++ chunks.flatten).length - 8
    rw [hmod, readU32le_patched_at4, patched_length, hflat]
    rw [Nat.mod_eq_of_lt (by omega)]
  · rw [recorderRun_ok _ _ _ hge]
    show (wavHdrPre ++
      u32le ((44 + chunks.flatten.length) % 2 ^ 32 - 8) ++ wavHdrMid ++
      u32le ((44 + chunks.flatten.length) % 2 ^ 32 - 44) ++ chunks.flatten).length = _
    rw [patched_length, hflat]
  · intro hne lang kw recog
    have hne' : (44 + chunks.flatten.length) % 2 ^ 32 ≠ 44 := by
      rw [hmod]
      have h1 : chunks.flatten.length ≠ 0 := fun h0 => hne (List.length_eq_zero.mp h0)
      rw [hflat] at h1
      omega
    rw [whisperRun_recordOnly _ _ _ _ recog hge hne']
    constructor
    · show readU32le (wavHdrPre ++
        u32le ((44 + chunks.flatten.length) % 2 ^ 32 - 8) ++ wavHdrMid ++
        u32le ((44 + chunks.flatten.length) % 2 ^ 32 - 44) ++ chunks.flatten) 40 = _
      rw [hmod, readU32le_patched_at40]
      simpa using Nat.mod_eq_of_lt hsum
    · show (wavHdrPre ++
        u32le ((44 + chunks.flatten.length) % 2 ^ 32 - 8) ++ wavHdrMid ++
        u32le ((44 + chunks.flatten.length) % 2 ^ 32 - 44) ++ chunks.flatten).length = _
      rw [patched_length, hflat]

/-- Claim C3, witness: the spec's own scenario — three 3200-byte chunks
give a 9644-byte file whose size fields read 9600 and 9636. -/
theorem wav_size_fields_correct_witness :
    (44 + (([List.replicate 3200 (0 : Nat), List.replicate 3200 0,
        List.replicate 3200 0]).map List.length).sum < 2 ^ 32) ∧
    ((recorderRun "f.wav" "rec/f.wav" [List.replicate 3200 0, List.replicate 3200 0,
        List.replicate 3200 0]).1 = Except.ok () ∧
     readU32le (recorderRun "f.wav" "rec/f.wav" [List.replicate 3200 0,
        List.replicate 3200 0, List.replicate 3200 0]).2.fileBytes 40 =
       (([List.replicate 3200 (0 : Nat), List.replicate 3200 0,
          List.replicate 3200 0]).map List.length).sum ∧
     readU32le (recorderRun "f.wav" "rec/f.wav" [List.replicate 3200 0,
        List.replicate 3200 0, List.replicate 3200 0]).2.fileBytes 4 =
       (recorderRun "f.wav" "rec/f.wav" [List.replicate 3200 0, List.replicate 3200 0,
          List.replicate 3200 0]).2.fileBytes.length - 8 ∧
     (recorderRun "f.wav" "rec/f.wav" [List.replicate 3200 0, List.replicate 3200 0,
        List.replicate 3200 0]).2.fileBytes.length =
       44 + (([List.replicate 3200 (0 : Nat), List.replicate 3200 0,
          List.replicate 3200 0]).map List.length).sum ∧
     (([List.replicate 3200 (0 : Nat), List.replicate 3200 0,
        List.replicate 3200 0]).flatten ≠ [] → ∀ (lang : String) (kw : Bool)
          (recog : Except String (String × String)),
       readU32le (whisperRun "rec/f.wav" lang false kw [List.replicate 3200 0,
          List.replicate 3200 0, List.replicate 3200 0] recog).2.1.fileBytes 40 =
         (([List.replicate 3200 (0 : Nat), List.replicate 3200 0,
            List.replicate 3200 0]).map List.length).sum ∧
       (whisperRun "rec/f.wav" lang false kw [List.replicate 3200 0,
          List.replicate 3200 0, List.replicate 3200 0] recog).2.1.fileBytes.length =
         44 + (([List.replicate 3200 (0 : Nat), List.replicate 3200 0,
            List.replicate 3200 0]).map List.length).sum)) :=
  by
  have hb : 44 + (([List.replicate 3200 (0 : Nat), List.replicate 3200 0,
      List.replicate 3200 0]).map List.length).sum < 2 ^ 32 := by
    rw [List.map_cons, List.map_cons, List.map_cons, List.map_nil,
      List.length_replicate]
    norm_num
  exact ⟨hb, wav_size_fields_correct "f.wav" "rec/f.wav"
    [List.replicate 3200 0, List.replicate 3200 0, List.replicate 3200 0] hb⟩

/-- Claim C4, counterexample.  The claim states that both batch backends
discard the header-only artifact of a stream closed with zero bytes
written.  The recorder has no empty-file branch: closing a fresh recorder
stream with no writes succeeds, keeps the 44-byte header file on disk, and
emits the usual `Result` naming that file. -/
theorem recorder_empty_stream_keeps_artifact :
    (recorderRun "r.wav" "rec/r.wav" []).1 = Except.ok () ∧
    (recorderRun "r.wav" "rec/r.wav" []).2.fileOnDisk = true ∧
    (recorderRun "r.wav" "rec/r.wav" []).2.results.sent =
      [{ text := "r.wav", confidence := 1, final := true }] := by
  have hge : ¬ (44 + ([] : List (List Nat)).flatten.length) % 2 ^ 32 < 44 := by
    norm_num
  rw [recorderRun_ok _ _ _ hge]
  exact ⟨rfl, rfl, rfl⟩

/-- Claim C4, amended: a Whisper stream closed with zero audio bytes never
invokes recognition, pushes no result, closes the channel and removes the
header-only artifact; the recorder stream (which has no empty-file branch
and no recognizer) finalizes the 44-byte header file, keeps it on disk and
emits its usual filename `Result`. -/
theorem empty_stream_behavior :
    (∀ (fp lang : String) (tf kw : Bool) (recog : Except String (String × String))
        (chunks : List (List Nat)), chunks.flatten = [] →
      (whisperRun fp lang tf kw chunks recog).1 = Except.ok () ∧
      (whisperRun fp lang tf kw chunks recog).2.1.fileOnDisk = false ∧
      (whisperRun fp lang tf kw chunks recog).2.1.results =
        { sent := [], closed := true, panicked := false } ∧
      (whisperRun fp lang tf kw chunks recog).2.2 = false) ∧
    (∀ (fn fp : String) (chunks : List (List Nat)), chunks.flatten = [] →
      (recorderRun fn fp chunks).1 = Except.ok () ∧
      (recorderRun fn fp chunks).2.fileOnDisk = true ∧
      (recorderRun fn fp chunks).2.results.sent =
        [{ text := fn, confidence := 1, final := true }]) := by
  constructor
  · intro fp lang tf kw recog chunks h0
    have hmod : (44 + chunks.flatten.length) % 2 ^ 32 = 44 := by
      rw [h0]; norm_num
    rw [whisperRun_empty _ _ _ _ _ recog hmod]
    exact ⟨rfl, rfl, rfl, rfl⟩
  · intro fn fp chunks h0
    have hge : ¬ (44 + chunks.flatten.length) % 2 ^ 32 < 44 := by
      rw [h0]; norm_num
    rw [recorderRun_ok _ _ _ hge]
    exact ⟨rfl, rfl, rfl⟩

/-- Claim C4, witness: both conjuncts of the amended claim instantiated at
a concrete zero-write session. -/
theorem empty_stream_behavior_witness :
    (([] : List (List Nat)).flatten = []) ∧
    ((whisperRun "out/a.wav" "en" true false [] (Except.error "e")).1 =
        Except.ok () ∧
     (whisperRun "out/a.wav" "en" true false [] (Except.error "e")).2.1.fileOnDisk =
        false ∧
     (whisperRun "out/a.wav" "en" true false [] (Except.error "e")).2.1.results =
        { sent := [], closed := true, panicked := false } ∧
     (whisperRun "out/a.wav" "en" true false [] (Except.error "e")).2.2 = false) ∧
    ((recorderRun "b.wav" "rec/b.wav" []).1 = Except.ok () ∧
     (recorderRun "b.wav" "rec/b.wav" []).2.fileOnDisk = true ∧
     (recorderRun "b.wav" "rec/b.wav" []).2.results.sent =
        [{ text := "b.wav", confidence := 1, final := true }]) :=
  ⟨rfl, empty_stream_behavior.1 "out/a.wav" "en" true false (Except.error "e") [] rfl,
   empty_stream_behavior.2 "b.wav" "rec/b.wav" [] rfl⟩

/-- Claim C5, counterexample.  The claim quantifies over every non-empty
audio prefix, but `uint32` truncation of the stat size makes a 2^32-byte
recording look empty: `Close` takes the empty-audio branch, never invokes
the recognizer (even though the recognition environment would fail), and
pushes no `Result` at all — not the promised single error result. -/
theorem whisper_wrap_swallows_recognition_failure :
    List.replicate (2 ^ 32) (0 : Nat) ≠ [] ∧
    (whisperRun "out/a.wav" "auto" true false [List.replicate (2 ^ 32) 0]
      (Except.error "whisper execution failed")).2.1.results.sent = [] ∧
    (whisperRun "out/a.wav" "auto" true false [List.replicate (2 ^ 32) 0]
      (Except.error "whisper execution failed")).2.2 = false := by
  have hflat : ([List.replicate (2 ^ 32) (0 : Nat)]).flatten.length = 2 ^ 32 := by
    rw [List.flatten_cons, List.flatten_nil, List.append_nil, List.length_replicate]
  have h32 : (2 : Nat) ^ 32 = 4294967296 := by norm_num
  have hmod : (44 + ([List.replicate (2 ^ 32) (0 : Nat)]).flatten.length) % 2 ^ 32 = 44 := by
    rw [hflat, h32]
  rw [whisperRun_empty _ _ _ _ _ (Except.error "whisper execution failed") hmod]
  refine ⟨?_, rfl, rfl⟩
  intro h
  have hlen := congrArg List.length h
  rw [List.length_replicate] at hlen
  exact absurd hlen (by norm_num)

/-- Claim C5, amended: for non-empty audio totalling (with the 44-byte
header) fewer than 2^32 bytes, a transcribing Whisper stream whose
recognition invocation fails still closes without error, invokes the
recognizer exactly once, and pushes exactly one `Result` carrying the
error message as its text ("Transcription error: " prefix), confidence 0
and final true, after which the channel is closed. -/
theorem whisper_recognition_failure_result (fp lang : String) (kw : Bool)
    (chunks : List (List Nat)) (e : String)
    (hne : chunks.flatten ≠ []) (hbound : 44 + chunks.flatten.length < 2 ^ 32) :
    (whisperRun fp lang true kw chunks (Except.error e)).1 = Except.ok () ∧
    (whisperRun fp lang true kw chunks (Except.error e)).2.2 = true ∧
    (whisperRun fp lang true kw chunks (Except.error e)).2.1.results =
      { sent := [{ text := "Transcription error: " ++ e, confidence := 0,
                   final := true, audioFile := fp }],
        closed := true, panicked := false } := by
  have hmod : (44 + chunks.flatten.length) % 2 ^ 32 = 44 + chunks.flatten.length :=
    Nat.mod_eq_of_lt hbound
  have hge : ¬ (44 + chunks.flatten.length) % 2 ^ 32 < 44 := by rw [hmod]; omega
  have hne' : (44 + chunks.flatten.length) % 2 ^ 32 ≠ 44 := by
    rw [hmod]
    have h1 : chunks.flatten.length ≠ 0 := fun h0 => hne (List.length_eq_zero.mp h0)
    omega
  rw [whisperRun_transcribing _ _ _ _ (Except.error e) hge hne']
  exact ⟨rfl, rfl, rfl⟩

/-- Claim C5, witness: a 2-byte session whose recognizer invocation
fails. -/
theorem whisper_recognition_failure_result_witness :
    (([[0, 1]] : List (List Nat)).flatten ≠ []) ∧
    (44 + ([[0, 1]] : List (List Nat)).flatten.length < 2 ^ 32) ∧
    ((whisperRun "out/w.wav" "auto" true false [[0, 1]]
        (Except.error "whisper execution failed")).1 = Except.ok () ∧
     (whisperRun "out/w.wav" "auto" true false [[0, 1]]
        (Except.error "whisper execution failed")).2.2 = true ∧
     (whisperRun "out/w.wav" "auto" true false [[0, 1]]
        (Except.error "whisper execution failed")).2.1.results =
       { sent := [{ text := "Transcription error: " ++ "whisper execution failed",
                    confidence := 0, final := true, audioFile := "out/w.wav" }],
         closed := true, panicked := false }) :=
  ⟨by decide, by decide,
   whisper_recognition_failure_result "out/w.wav" "auto" false [[0, 1]]
     "whisper execution failed" (by decide) (by decide)⟩

/-- Claim C6, counterexample.  The claim quantifies over every stream with
non-empty audio, but a 2^32-byte record-only session is judged empty by
the truncated size check: no `Result` is pushed and the WAV file is
removed, where the claim promises one record-only `Result` and a retained
file. -/
theorem whisper_wrap_discards_record_only :
    List.replicate (2 ^ 32) (0 : Nat) ≠ [] ∧
    (whisperRun "out/b.wav" "auto" false true [List.replicate (2 ^ 32) 0]
      (Except.ok ("t", "t.txt"))).2.1.results.sent = [] ∧
    (whisperRun "out/b.wav" "auto" false true [List.replicate (2 ^ 32) 0]
      (Except.ok ("t", "t.txt"))).2.1.fileOnDisk = false := by
  have hflat : ([List.replicate (2 ^ 32) (0 : Nat)]).flatten.length = 2 ^ 32 := by
    rw [List.flatten_cons, List.flatten_nil, List.append_nil, List.length_replicate]
  have h32 : (2 : Nat) ^ 32 = 4294967296 := by norm_num
  have hmod : (44 + ([List.replicate (2 ^ 32) (0 : Nat)]).flatten.length) % 2 ^ 32 = 44 := by
    rw [hflat, h32]
  rw [whisperRun_empty _ _ _ _ _ (Except.ok ("t", "t.txt")) hmod]
  refine ⟨?_, rfl, rfl⟩
  intro h
  have hlen := congrArg List.length h
  rw [List.length_replicate] at hlen
  exact absurd hlen (by norm_num)

/-- Claim C6, amended: for non-empty audio totalling (with the header)
fewer than 2^32 bytes, a record-only Whisper stream closes without error,
never invokes the recognizer, keeps the WAV file on disk, and pushes
exactly one `Result` whose text is the fixed record-only message and whose
audio-file field is the stream's WAV path, after which the channel is
closed. -/
theorem whisper_record_only_keeps_wav (fp lang : String) (kw : Bool)
    (chunks : List (List Nat)) (recog : Except String (String × String))
    (hne : chunks.flatten ≠ []) (hbound : 44 + chunks.flatten.length < 2 ^ 32) :
    (whisperRun fp lang false kw chunks recog).1 = Except.ok () ∧
    (whisperRun fp lang false kw chunks recog).2.2 = false ∧
    (whisperRun fp lang false kw chunks recog).2.1.fileOnDisk = true ∧
    (whisperRun fp lang false kw chunks recog).2.1.results =
      { sent := [{ text := "Recording saved (transcription disabled)",
                   confidence := 1, final := true, audioFile := fp }],
        closed := true, panicked := false } := by
  have hmod : (44 + chunks.flatten.length) % 2 ^ 32 = 44 + chunks.flatten.length :=
    Nat.mod_eq_of_lt hbound
  have hge : ¬ (44 + chunks.flatten.length) % 2 ^ 32 < 44 := by rw [hmod]; omega
  have hne' : (44 + chunks.flatten.length) % 2 ^ 32 ≠ 44 := by
    rw [hmod]
    have h1 : chunks.flatten.length ≠ 0 := fun h0 => hne (List.length_eq_zero.mp h0)
    omega
  rw [whisperRun_recordOnly _ _ _ _ recog hge hne']
  exact ⟨rfl, rfl, rfl, rfl⟩

/-- Claim C6, witness: a 2-byte record-only session. -/
theorem whisper_record_only_keeps_wav_witness :
    (([[2, 3]] : List (List Nat)).flatten ≠ []) ∧
    (44 + ([[2, 3]] : List (List Nat)).flatten.length < 2 ^ 32) ∧
    ((whisperRun "out/r.wav" "en" false false [[2, 3]] (Except.ok ("t", "t.txt"))).1 =
        Except.ok () ∧
     (whisperRun "out/r.wav" "en" false false [[2, 3]]
        (Except.ok ("t", "t.txt"))).2.2 = false ∧
     (whisperRun "out/r.wav" "en" false false [[2, 3]]
        (Except.ok ("t", "t.txt"))).2.1.fileOnDisk = true ∧
     (whisperRun "out/r.wav" "en" false false [[2, 3]]
        (Except.ok ("t", "t.txt"))).2.1.results =
       { sent := [{ text := "Recording saved (transcription disabled)",
                    confidence := 1, final := true, audioFile := "out/r.wav" }],
         closed := true, panicked := false }) :=
  ⟨by decide, by decide,
   whisper_record_only_keeps_wav "out/r.wav" "en" false [[2, 3]]
     (Except.ok ("t", "t.txt")) (by decide) (by decide)⟩

/-- Claim C7, counterexample.  The claim states the deferred block always
drains the result channel and closes the data channel.  When
`trStream.Close()` returns an error (for example the recorder's "failed to
get file info" error when the stat fails, recorder.go:213), the deferred
function logs it and returns immediately: a pending partial result is
dropped and the data channel is never closed. -/
theorem cleanup_skipped_on_close_error :
    sessionCleanup (some "failed to get file info")
      [{ text := "partial", confidence := 0, final := false }]
      { relayed := [], dcClosed := false } =
      { relayed := [], dcClosed := false } ∧
    ({ relayed := [], dcClosed := false } : DataChannelState).dcClosed = false :=
  ⟨rfl, rfl⟩

/-- Claim C7, amended: on every pump-loop exit the deferred block calls
`Close` on the transcription stream; when `Close` returns without error it
drains the result channel to completion, relays every `Result` over the
data channel (in order, appended to anything already relayed) and then
closes the data channel; when `Close` returns an error the block returns
early, relaying nothing and leaving the data channel open. -/
theorem cleanup_drains_iff_close_ok :
    (∀ (pending : List Result) (dc : DataChannelState),
      sessionCleanup none pending dc =
        { relayed := dc.relayed ++ pending, dcClosed := true }) ∧
    (∀ (e : String) (pending : List Result) (dc : DataChannelState),
      sessionCleanup (some e) pending dc = dc) :=
  ⟨fun _ _ => rfl, fun _ _ _ => rfl⟩

/-- Claim C8 (code bug), evaluation at the failing input.  Three packets
where only the second is corrupted: `handleAudioTrack`'s consumer sends
the handshake `response <- true` only after a successful decode
(pion.go:166-171), so after the failed decode of packet 2 the reader stays
blocked on `<-response`, packet 3 is never read, and the 5-second idle
timer ends the session.  Only packet 1's audio reaches the sink, while the
claim (and the code's own "Skip this chunk but continue processing"
comment) expects both valid packets, `List.filterMap decodeBad2` here. -/
theorem pump_decode_failure_stalls :
    pumpRun decodeBad2 [[1], [2], [3]] = ([[1]], PumpExit.timeout) ∧
    List.filterMap decodeBad2 [[1], [2], [3]] = [[1], [3]] := by
  exact ⟨rfl, rfl⟩

/-- Claim C9: every backend's factory provides both `CreateStream` and
`CreateStreamWithOptions`.  For the Whisper backend (present in the
snapshot) the options override the stream's language (falling back to the
backend default when empty) and its transcribe-enable flag, and
`CreateStream` delegates to the default options; the other backends'
`CreateStreamWithOptions` (and the whole Google backend) are modelled from
the spec's factory contract. -/
theorem factories_provide_both_operations :
    ∀ (w : WhisperTranscriber) (r : RecorderTranscriber) (t : IflyTekTranscriber)
      (a : AzureTranscriber) (b : BaiduTranscriber) (g : GoogleSpeech)
      (opts : StreamOptions) (ts : String),
      (w.createStreamWithOptions opts ts).2.language =
        (if opts.language = "" then w.language else opts.language) ∧
      (w.createStreamWithOptions opts ts).2.transcribe = opts.transcribe ∧
      w.createStream ts =
        w.createStreamWithOptions { language := w.language, transcribe := true } ts ∧
      r.createStreamWithOptions opts ts = r.createStream ts ∧
      t.createStreamWithOptions opts = t.createStream ∧
      a.createStreamWithOptions opts = a.createStream ∧
      b.createStreamWithOptions opts = b.createStream ∧
      (g.createStreamWithOptions opts).language = opts.language ∧
      (g.createStreamWithOptions opts).transcribe = opts.transcribe := by
  intro w r t a b g opts ts
  exact ⟨rfl, rfl, rfl, rfl, rfl, rfl, rfl, rfl, rfl⟩

/-- Claim C10: a recorder stream whose `Close` returns without error has
pushed exactly one `Result` — text the WAV file's base name, confidence
1.0, final true, empty audio-file and text-file fields — before the
channel was closed; `CreateStream` builds the path as the output directory
joined with that base name. -/
theorem recorder_single_result (fn fp : String) (chunks : List (List Nat))
    (h : (recorderRun fn fp chunks).1 = Except.ok ()) :
    (recorderRun fn fp chunks).2.results =
      { sent := [{ text := fn, confidence := 1, final := true,
                   audioFile := "", textFile := "" }],
        closed := true, panicked := false } ∧
    (∀ (r : RecorderTranscriber) (ts : String),
      (r.createStream ts).2.filePath =
        r.outputDir ++ "/" ++ (r.createStream ts).2.fileName) := by
  by_cases hlt : (44 + chunks.flatten.length) % 2 ^ 32 < 44
  · rw [recorderRun_short _ _ _ hlt] at h
    exact absurd h (by simp)
  · rw [recorderRun_ok _ _ _ hlt]
    exact ⟨rfl, fun r ts => rfl⟩

/-- Claim C10, witness: a 2-byte recorder session closes successfully with
the single filename result. -/
theorem recorder_single_result_witness :
    ((recorderRun "w.wav" "rec/w.wav" [[0, 1]]).1 = Except.ok ()) ∧
    ((recorderRun "w.wav" "rec/w.wav" [[0, 1]]).2.results =
      { sent := [{ text := "w.wav", confidence := 1, final := true,
                   audioFile := "", textFile := "" }],
        closed := true, panicked := false } ∧
     (∀ (r : RecorderTranscriber) (ts : String),
       (r.createStream ts).2.filePath =
         r.outputDir ++ "/" ++ (r.createStream ts).2.fileName)) :=
  ⟨by rfl, recorder_single_result "w.wav" "rec/w.wav" [[0, 1]] (by rfl)⟩

end WebrtcTranscriber
